import Mathlib

/-!
Verification of the client-side file-intake and result-synchronization
engine of the stock-screener front end.

The embedding covers the two observed variants of the front-end script:
* namespace `ScriptJs` — `src/static/js/script.js` (the script the page
  actually loads via `static/js/script.js`): accept-all archive policy,
  `res.ok` check, per-item `error` partitioning, consolidated failure
  alert, queue cleared on every terminal path.
* namespace `Legacy` — the older script variant found in
  `src/unnamed/part_000`: `.csv`-filtered archive policy, an
  "Unsupported type" alert for other extensions, no `res.ok` check,
  all response items appended, queue not cleared in the catch path.

DOM / platform effects are modelled explicitly: the global `files`
array is `State.files`, the rows of the DataTable are `State.rows` (each row
held as the HTML string assigned to `tr.innerHTML`), the
`resultsContainer.style.display` value is `State.display`, and each
`window.alert` call appends its message to `State.alerts`.
-/

/-- One entry yielded by `JSZip.loadAsync`: a key of `zip.files` together
with the bytes produced by awaiting the blob of `zip.files[name]`. -/
structure ZipEntry where
  name : String
  data : String
deriving DecidableEq, Repr

/-- A raw dropped/selected item (a platform `File`).  `decode` records the
outcome `JSZip.loadAsync` would have on its bytes: `some entries` when the
buffer decodes, `none` when `loadAsync` rejects (corrupt bundle).  The
scripts consult it only for names ending in `.zip`. -/
structure RawItem where
  name : String
  type : String
  data : String
  decode : Option (List ZipEntry)
deriving DecidableEq, Repr

/-- A file sitting in the global `files` queue (a platform `File`:
name, declared media type, bytes). -/
structure PendingFile where
  name : String
  type : String
  data : String
deriving DecidableEq, Repr

/-- One element of the `results` list of the JSON body of the service.
`error` models the truthiness of the per-item `r.error` indicator; the
metric fields and `chart_link` are the strings interpolated into the row
template. -/
structure ResponseItem where
  file_name : String
  error : Bool
  chart_link : String
  std_dev : String
  large_changes : String
  avg_daily_return : String
  annual_volatility : String
  sharpe_ratio : String
  max_drawdown : String
  positive_days : String
  moving_average : String
  bollinger_pctB : String
  rsi : String
  volume_spikes : String
deriving DecidableEq, Repr

deriving instance DecidableEq for Except

/-- Outcome of the `fetch` round trip against the service root.
`fail` : the fetch promise rejected (transport error), carrying the
rendering of the thrown value.
`resp` : a response arrived, with its `ok` flag, status, body text, and
the outcome of parsing the body as `{ results: [...] }` (`Except.error`
when `res.json()` throws or the destructured `results` is unusable). -/
inductive FetchOutcome where
  | fail (err : String)
  | resp (resOk : Bool) (status : Nat) (bodyText : String)
      (json : Except String (List ResponseItem))
deriving DecidableEq, Repr

/-- The mutable client state: the global `files` array, the rows of the
DataTable (as the HTML strings fed to `tr.innerHTML`), the
`style.display` value of the results container, and the log of `alert`
messages. -/
structure State where
  files : List PendingFile
  rows : List String
  display : String
  alerts : List String
deriving DecidableEq, Repr

/-- The initial state of the page: empty queue, empty table, results
container hidden by the stylesheet, no alerts raised. -/
def initialState : State :=
  { files := [], rows := [], display := "none", alerts := [] }

/-- Function `updateResultsVisibility` (identical in both variants): the
display style of the results container is set to `block` when the row
count is positive and to `none` otherwise. -/
def updateResultsVisibility (st : State) : State :=
  { st with display := if 0 < st.rows.length then "block" else "none" }

/-- The `link` local of `appendResults`: an anchor around the file name
when `chart_link` is not the literal string `N/A`, the bare `file_name`
otherwise.  No escaping is applied to either field. -/
def linkHtml (r : ResponseItem) : String :=
  if r.chart_link ≠ "N/A" then
    "<a href=\"" ++ r.chart_link ++ "\" target=\"_blank\">" ++ r.file_name ++ "</a>"
  else
    r.file_name

/-- The template literal assigned to `tr.innerHTML` in `appendResults`
(identical in both variants), with every response field spliced in raw. -/
def rowHtml (r : ResponseItem) : String :=
  "\n            <td>" ++ linkHtml r ++
  "</td>\n            <td>" ++ r.std_dev ++
  "</td>\n            <td>" ++ r.large_changes ++
  "</td>\n            <td>" ++ r.avg_daily_return ++
  "</td>\n            <td>" ++ r.annual_volatility ++
  "</td>\n            <td>" ++ r.sharpe_ratio ++
  "</td>\n            <td>" ++ r.max_drawdown ++
  "</td>\n            <td>" ++ r.positive_days ++
  "</td>\n            <td>" ++ r.moving_average ++
  "</td>\n            <td>" ++ r.bollinger_pctB ++
  "</td>\n            <td>" ++ r.rsi ++
  "</td>\n            <td>" ++ r.volume_spikes ++
  "</td>\n            <td class=\"action-col\"><button class=\"remove-btn\">❌</button></td>\n        "

/-- Function `appendResults` (identical in both variants): one `<tr>` per response
item is added to the table, then `dataTable.draw(false)` and
`updateResultsVisibility()` run. -/
def appendResults (st : State) (results : List ResponseItem) : State :=
  updateResultsVisibility { st with rows := st.rows ++ results.map rowHtml }

/-- The `.remove-btn` click handler: removes exactly the clicked row
(`dataTable.row(tr).remove().draw()`), then recomputes visibility. -/
def removeRow (st : State) (i : Nat) : State :=
  updateResultsVisibility { st with rows := st.rows.eraseIdx i }

/-- The `#clear-results` click handler: `dataTable.clear().draw()`, then
recomputes visibility. -/
def clearResults (st : State) : State :=
  updateResultsVisibility { st with rows := [] }

/-- JavaScript `String.prototype.endsWith`, computed structurally on the
character list (extensionally the same test as `String.endsWith`, but
kernel-reducible). -/
def jsEndsWith (s pat : String) : Bool :=
  pat.data.isSuffixOf s.data

/-- Worker for `lastPathSegment`: the accumulator collects
the current segment and is reset at each separator, so the characters
remaining at the end are exactly the final segment `pop()` returns
(`[""]` on the empty string, so the result is `""` there). -/
def lastPathSegmentAux : List Char → List Char → List Char
  | [], seg => seg
  | c :: cs, seg =>
      if c == '/' || c == '\\' then lastPathSegmentAux cs []
      else lastPathSegmentAux cs (seg ++ [c])

/-- Model of taking `pop()` of the JS split on `[/\\]`: the last segment of the name after
splitting on forward and backward slashes. -/
def lastPathSegment (s : String) : String :=
  ⟨lastPathSegmentAux s.data []⟩

/-- Spreading a JS `Set` built from a string list: keep the first
occurrence of each element, in order.  `seen` accumulates the elements
already kept. -/
def dedupFirstAux : List String → List String → List String
  | [], _ => []
  | x :: xs, seen =>
      if x ∈ seen then dedupFirstAux xs seen
      else x :: dedupFirstAux xs (x :: seen)

/-- Spreading a JS `Set` built from a string list: distinct elements in
first-occurrence order. -/
def dedupFirst (l : List String) : List String :=
  dedupFirstAux l []

namespace ScriptJs

/-- The message alerted by the catch block of `doUpload`. -/
def uploadFailAlert : String :=
  "Could not upload files. Make sure you are uploading valid files (no folders)"

/-- The consolidated failure alert of `doUpload`, built from the distinct
failed file names: pluralized by whether more than one distinct name
remains, with the names joined by newlines. -/
def failAlertMsg (failedFiles : List String) : String :=
  "The following file" ++ (if 1 < failedFiles.length then "s" else "") ++
    " failed to upload:\n\n" ++ String.intercalate "\n" failedFiles

/-- Function `processFile` of `src/static/js/script.js` (lines 60–78).  A `.zip`
name is decoded with JSZip — a rejection propagates (`Except.error`
carries the state at the throw) — and every entry is pushed as a
`File` named after the entry with declared type `text/csv`; with zero
entries, `validFileFound` stays false and one alert is raised.  Any
other name is pushed as-is. -/
def processFile (st : State) (f : RawItem) : Except State State :=
  if jsEndsWith f.name ".zip" then
    match f.decode with
    | none => .error st
    | some entries =>
        let st' := { st with
          files := st.files ++ entries.map (fun e => ⟨e.name, "text/csv", e.data⟩) }
        if entries.isEmpty then
          .ok { st' with
            alerts := st'.alerts ++ ["ZIP file \"" ++ f.name ++ "\" contains no files."] }
        else
          .ok st'
  else
    .ok { st with files := st.files ++ [⟨f.name, f.type, f.data⟩] }

/-- Function `doUpload` of `src/static/js/script.js` (lines 81–124).  Returns the
new state and `some sentFiles` when a request was issued (`none` on the
empty-queue early return).  The catch block is reached on transport
failure, on `!res.ok`, and on a body that fails to parse. -/
def doUpload (st : State) (out : FetchOutcome) : State × Option (List PendingFile) :=
  if st.files.isEmpty then (st, none)
  else
    let sent := st.files
    match out with
    | .fail _ =>
        ({ st with files := [], alerts := st.alerts ++ [uploadFailAlert] }, some sent)
    | .resp resOk _ _ json =>
        if !resOk then
          ({ st with files := [], alerts := st.alerts ++ [uploadFailAlert] }, some sent)
        else
          match json with
          | .error _ =>
              ({ st with files := [], alerts := st.alerts ++ [uploadFailAlert] }, some sent)
          | .ok results =>
              let validResults := results.filter (fun r => !r.error)
              let errorResults := results.filter (fun r => r.error)
              let st₁ := if validResults.isEmpty then st else appendResults st validResults
              let st₂ :=
                if errorResults.isEmpty then st₁
                else
                  let failedFiles :=
                    dedupFirst (errorResults.map (fun r => lastPathSegment r.file_name))
                  let failedFilesMsg := String.intercalate "\n" failedFiles
                  if 0 < failedFilesMsg.length then
                    { st₁ with alerts := st₁.alerts ++ [failAlertMsg failedFiles] }
                  else st₁
              ({ st₂ with files := [] }, some sent)

end ScriptJs

namespace Legacy

/-- Function `processFile` of the `src/unnamed/part_000` variant (lines 60–75):
`.zip` entries are filtered to names ending in `.csv` (no empty-bundle
check), bare `.csv` files are pushed, anything else raises one
`Unsupported type` alert. -/
def processFile (st : State) (f : RawItem) : Except State State :=
  if jsEndsWith f.name ".zip" then
    match f.decode with
    | none => .error st
    | some entries =>
        .ok { st with
          files := st.files ++
            ((entries.filter (fun e => jsEndsWith e.name ".csv")).map
              (fun e => ⟨e.name, "text/csv", e.data⟩)) }
  else if jsEndsWith f.name ".csv" then
    .ok { st with files := st.files ++ [⟨f.name, f.type, f.data⟩] }
  else
    .ok { st with alerts := st.alerts ++ ["Unsupported type: " ++ f.name] }

/-- Function `doUpload` of the `src/unnamed/part_000` variant (lines 78–95): no
`res.ok` check, every response item appended, and the catch path alerts
`Upload error:` followed by the rendered exception, without clearing the queue. -/
def doUpload (st : State) (out : FetchOutcome) : State × Option (List PendingFile) :=
  if st.files.isEmpty then (st, none)
  else
    let sent := st.files
    match out with
    | .fail err =>
        ({ st with alerts := st.alerts ++ ["Upload error: " ++ err] }, some sent)
    | .resp _ _ _ json =>
        match json with
        | .error err =>
            ({ st with alerts := st.alerts ++ ["Upload error: " ++ err] }, some sent)
        | .ok results =>
            ({ appendResults st results with files := [] }, some sent)

end Legacy

/-- The state reached by an `Except`-returning step, whether or not it
threw: the error payload is the state at the point of the throw. -/
def exSt : Except State State → State
  | .error st => st
  | .ok st => st

/-- The `for (let f of …) await processFile(f)` loop of the drop and
file-picker handlers: items are processed strictly in order; a rejected
`processFile` promise escapes the (uncaught) async handler, so the loop
stops there.  Returns the state reached and whether the loop completed. -/
def runItems (pf : State → RawItem → Except State State) :
    State → List RawItem → State × Bool
  | st, [] => (st, true)
  | st, f :: fs =>
      match pf st f with
      | .error st' => (st', false)
      | .ok st' => runItems pf st' fs

namespace ScriptJs

/-- The drop / file-picker handler of `src/static/js/script.js`
(lines 47–58): process every item, then `await doUpload()`.  When a
`processFile` rejection escapes, `doUpload` is never reached: the third
component records the request actually issued (`none` if no fetch ran). -/
def handleBatch (st : State) (items : List RawItem) (out : FetchOutcome) :
    State × Bool × Option (List PendingFile) :=
  match runItems processFile st items with
  | (st', false) => (st', false, none)
  | (st', true) =>
      let (st'', sent) := doUpload st' out
      (st'', true, sent)

end ScriptJs

namespace Legacy

/-- The drop / file-picker handler of the `src/unnamed/part_000` variant
(lines 47–58), same shape as the current one. -/
def handleBatch (st : State) (items : List RawItem) (out : FetchOutcome) :
    State × Bool × Option (List PendingFile) :=
  match runItems processFile st items with
  | (st', false) => (st', false, none)
  | (st', true) =>
      let (st'', sent) := doUpload st' out
      (st'', true, sent)

end Legacy

/-! ### Helper lemmas -/

theorem mem_dedupFirstAux : ∀ (l seen : List String) (x : String),
    x ∈ dedupFirstAux l seen ↔ x ∈ l ∧ x ∉ seen := by
  intro l
  induction l with
  | nil => intro seen x; simp [dedupFirstAux]
  | cons y l ih =>
      intro seen x
      by_cases hy : y ∈ seen
      · rw [dedupFirstAux, if_pos hy, ih]
        constructor
        · rintro ⟨hx, hns⟩
          exact ⟨List.mem_cons_of_mem _ hx, hns⟩
        · rintro ⟨hx, hns⟩
          rcases List.mem_cons.mp hx with rfl | hx
          · exact absurd hy hns
          · exact ⟨hx, hns⟩
      · rw [dedupFirstAux, if_neg hy]
        simp only [List.mem_cons, ih]
        constructor
        · rintro (rfl | ⟨hx, hns⟩)
          · exact ⟨Or.inl rfl, hy⟩
          · push_neg at hns
            exact ⟨Or.inr hx, hns.2⟩
        · rintro ⟨rfl | hx, hns⟩
          · exact Or.inl rfl
          · by_cases hxy : x = y
            · exact Or.inl hxy
            · refine Or.inr ⟨hx, ?_⟩
              push_neg
              exact ⟨hxy, hns⟩

theorem nodup_dedupFirstAux : ∀ (l seen : List String),
    (dedupFirstAux l seen).Nodup := by
  intro l
  induction l with
  | nil => intro seen; simp [dedupFirstAux]
  | cons y l ih =>
      intro seen
      by_cases hy : y ∈ seen
      · simpa [dedupFirstAux, hy] using ih seen
      · simp only [dedupFirstAux, hy, ite_false]
        refine List.nodup_cons.mpr ⟨?_, ih _⟩
        rw [mem_dedupFirstAux]
        rintro ⟨-, hns⟩
        exact hns (List.mem_cons_self _ _)

theorem dedupFirstAux_all_eq_mem : ∀ (l seen : List String) (s : String),
    (∀ x ∈ l, x = s) → s ∈ seen → dedupFirstAux l seen = [] := by
  intro l
  induction l with
  | nil => intro seen s _ _; rfl
  | cons y l ih =>
      intro seen s hall hs
      have hy : y = s := hall y (List.mem_cons_self _ _)
      subst hy
      simp only [dedupFirstAux, hs, ite_true]
      exact ih seen y (fun x hx => hall x (List.mem_cons_of_mem _ hx)) hs

theorem dedupFirst_all_eq (l : List String) (s : String)
    (hne : l ≠ []) (hall : ∀ x ∈ l, x = s) : dedupFirst l = [s] := by
  cases l with
  | nil => exact absurd rfl hne
  | cons y l =>
      have hy : y = s := hall y (List.mem_cons_self _ _)
      subst hy
      simp only [dedupFirst, dedupFirstAux, List.not_mem_nil, ite_false]
      rw [dedupFirstAux_all_eq_mem l [y] y
        (fun x hx => hall x (List.mem_cons_of_mem _ hx)) (List.mem_cons_self _ _)]

theorem isEmpty_false_of_ne_nil {α : Type} (l : List α) (h : l ≠ []) :
    l.isEmpty = false := by
  cases l with
  | nil => exact absurd rfl h
  | cons a t => rfl

theorem scriptJs_doUpload_clears (st : State) (out : FetchOutcome)
    (hf : st.files.isEmpty = false) :
    (ScriptJs.doUpload st out).1.files = [] := by
  cases out with
  | fail e => simp [ScriptJs.doUpload, hf]
  | resp resOk sc bt json =>
      cases resOk
      · simp [ScriptJs.doUpload, hf]
      · cases json with
        | error e => simp [ScriptJs.doUpload, hf]
        | ok results => simp [ScriptJs.doUpload, hf]

theorem scriptJs_doUpload_ok_rows (st : State) (sc : Nat) (bt : String)
    (rs : List ResponseItem) (hf : st.files.isEmpty = false) :
    (ScriptJs.doUpload st (.resp true sc bt (.ok rs))).1.rows
      = st.rows ++ (rs.filter (fun r => !r.error)).map rowHtml := by
  simp only [ScriptJs.doUpload, hf]
  rw [if_neg (by decide : ¬(false = true)), if_neg (by decide : ¬((!true) = true))]
  dsimp only
  split <;> rename_i herr
  · split <;> rename_i hv
    · simp [List.isEmpty_iff.mp hv]
    · simp [appendResults, updateResultsVisibility]
  · split <;> rename_i hmsg
    · dsimp only
      split <;> rename_i hv
      · simp [List.isEmpty_iff.mp hv]
      · simp [appendResults, updateResultsVisibility]
    · split <;> rename_i hv
      · simp [List.isEmpty_iff.mp hv]
      · simp [appendResults, updateResultsVisibility]

theorem scriptJs_doUpload_ok_alerts (st : State) (sc : Nat) (bt : String)
    (rs : List ResponseItem) (hf : st.files.isEmpty = false) :
    (ScriptJs.doUpload st (.resp true sc bt (.ok rs))).1.alerts
      = st.alerts ++
        (if (rs.filter (fun r => r.error)).isEmpty = true then []
         else if 0 < (String.intercalate "\n"
             (dedupFirst ((rs.filter (fun r => r.error)).map
               (fun r => lastPathSegment r.file_name)))).length then
           [ScriptJs.failAlertMsg
             (dedupFirst ((rs.filter (fun r => r.error)).map
               (fun r => lastPathSegment r.file_name)))]
         else []) := by
  simp only [ScriptJs.doUpload, hf]
  rw [if_neg (by decide : ¬(false = true)), if_neg (by decide : ¬((!true) = true))]
  dsimp only
  split <;> rename_i herr
  · split <;> rename_i hv
    · simp
    · simp [appendResults, updateResultsVisibility]
  · split <;> rename_i hmsg
    · dsimp only
      split <;> rename_i hv
      · simp
      · simp [appendResults, updateResultsVisibility]
    · split <;> rename_i hv
      · simp
      · simp [appendResults, updateResultsVisibility]

/-! ### C1 -/

/-- C1: for every upload attempt started with a non-empty pending queue,
the global `files` array is reset to the empty array before `doUpload`
returns, on every terminal path — success response, non-success server
status, malformed response body, and transport exception. -/
theorem upload_clears_queue_on_all_terminal_paths (st : State) (out : FetchOutcome)
    (h : st.files ≠ []) :
    (ScriptJs.doUpload st out).1.files = [] := by
  exact scriptJs_doUpload_clears st out (isEmpty_false_of_ne_nil st.files h)

/-- Concrete pending file used by the witnesses. -/
def samplePending : PendingFile := ⟨"a.csv", "text/csv", "bytes"⟩

/-- Concrete state with one queued file used by the witnesses. -/
def sampleState : State :=
  { files := [samplePending], rows := [], display := "none", alerts := [] }

/-- Witness for C1 at a concrete non-empty queue and a transport failure. -/
theorem upload_clears_queue_witness :
    (ScriptJs.doUpload sampleState (.fail "TypeError: Failed to fetch")).1.files = [] :=
  upload_clears_queue_on_all_terminal_paths sampleState
    (.fail "TypeError: Failed to fetch") (by decide)

/-! ### C5 -/

/-- C5: after every append, per-row remove, and clear-all operation the
visibility of the results area is recomputed, and the area is shown
(`display = block`) if and only if the row count is greater than zero. -/
theorem results_visible_iff_rows (st : State) (results : List ResponseItem) (i : Nat) :
    ((appendResults st results).display = "block"
        ↔ 0 < (appendResults st results).rows.length)
    ∧ ((removeRow st i).display = "block" ↔ 0 < (removeRow st i).rows.length)
    ∧ ((clearResults st).display = "block" ↔ 0 < (clearResults st).rows.length) := by
  refine ⟨?_, ?_, ?_⟩ <;>
    · simp only [appendResults, removeRow, clearResults, updateResultsVisibility]
      split <;> rename_i hcond
      · exact iff_of_true rfl hcond
      · exact iff_of_false (by decide) hcond

/-! ### C7 -/

/-- C7: a dropped bundle from which the (accept-all) archive policy of
`script.js` yields zero usable entries queues zero pending files and
raises exactly one user notice reporting the empty bundle; it is never
silently ignored. -/
theorem empty_zip_reports_no_usable_files (st : State) (f : RawItem)
    (hz : jsEndsWith f.name ".zip" = true) (hd : f.decode = some []) :
    ScriptJs.processFile st f =
      .ok { st with
        alerts := st.alerts ++ ["ZIP file \"" ++ f.name ++ "\" contains no files."] } := by
  simp [ScriptJs.processFile, hz, hd]

/-- Concrete decodable-but-empty bundle. -/
def emptyZipItem : RawItem := ⟨"empty.zip", "application/zip", "zipbytes", some []⟩

/-- Witness for C7 at a concrete empty bundle. -/
theorem empty_zip_reports_witness :
    ScriptJs.processFile initialState emptyZipItem =
      .ok { initialState with
        alerts := initialState.alerts
          ++ ["ZIP file \"" ++ emptyZipItem.name ++ "\" contains no files."] } :=
  empty_zip_reports_no_usable_files initialState emptyZipItem (by decide) (by decide)


/-! ### C2 -/

/-- C2: on a success response a result-table row is appended exactly for
the response items whose `error` indicator is falsy (error items never
produce a row); `doUpload` never removes rows on any outcome, and
`processFile` never touches rows, so rows disappear only through the
per-row remove control or the clear-all control. -/
theorem rows_appended_only_for_success_items (st : State) (results : List ResponseItem)
    (status : Nat) (body : String) (h : st.files ≠ []) :
    (ScriptJs.doUpload st (.resp true status body (.ok results))).1.rows
        = st.rows ++ (results.filter (fun r => !r.error)).map rowHtml
    ∧ (∀ out : FetchOutcome, ∃ appended,
        (ScriptJs.doUpload st out).1.rows = st.rows ++ appended)
    ∧ (∀ f : RawItem, (exSt (ScriptJs.processFile st f)).rows = st.rows) := by
  have hf : st.files.isEmpty = false := isEmpty_false_of_ne_nil st.files h
  have hok : ∀ (sc : Nat) (bt : String) (rs : List ResponseItem),
      (ScriptJs.doUpload st (.resp true sc bt (.ok rs))).1.rows
        = st.rows ++ (rs.filter (fun r => !r.error)).map rowHtml :=
    fun sc bt rs => scriptJs_doUpload_ok_rows st sc bt rs hf
  refine ⟨hok status body results, ?_, ?_⟩
  · intro out
    cases out with
    | fail e => exact ⟨[], by simp [ScriptJs.doUpload, hf]⟩
    | resp resOk sc bt json =>
        cases resOk
        · exact ⟨[], by simp [ScriptJs.doUpload, hf]⟩
        · cases json with
          | error e => exact ⟨[], by simp [ScriptJs.doUpload, hf]⟩
          | ok rs =>
              exact ⟨(rs.filter (fun r => !r.error)).map rowHtml, hok sc bt rs⟩
  · intro f
    by_cases hz : jsEndsWith f.name ".zip" = true
    · simp only [ScriptJs.processFile, hz, ite_true]
      cases hd : f.decode with
      | none => rfl
      | some entries =>
          dsimp only
          split <;> rfl
    · simp [ScriptJs.processFile, hz, exSt]

/-- Concrete success item with a chart link. -/
def successItem : ResponseItem :=
  { file_name := "b.csv", error := false, chart_link := "http://charts/b",
    std_dev := "1.0", large_changes := "2", avg_daily_return := "0.1",
    annual_volatility := "3.2", sharpe_ratio := "0.5", max_drawdown := "4.1",
    positive_days := "55", moving_average := "101.5", bollinger_pctB := "0.7",
    rsi := "48", volume_spikes := "3" }

/-- Concrete error item whose name keeps a non-empty base name. -/
def errorNamedItem : ResponseItem :=
  { file_name := "dir/x.csv", error := true, chart_link := "N/A",
    std_dev := "", large_changes := "", avg_daily_return := "",
    annual_volatility := "", sharpe_ratio := "", max_drawdown := "",
    positive_days := "", moving_average := "", bollinger_pctB := "",
    rsi := "", volume_spikes := "" }

/-- Witness for C2 at a concrete queue and a one-success one-error response. -/
theorem rows_appended_witness :
    (ScriptJs.doUpload sampleState
        (.resp true 200 "" (.ok [successItem, errorNamedItem]))).1.rows
      = sampleState.rows
        ++ ([successItem, errorNamedItem].filter (fun r => !r.error)).map rowHtml
    ∧ (∀ out : FetchOutcome, ∃ appended,
        (ScriptJs.doUpload sampleState out).1.rows = sampleState.rows ++ appended)
    ∧ (∀ f : RawItem, (exSt (ScriptJs.processFile sampleState f)).rows = sampleState.rows) :=
  rows_appended_only_for_success_items sampleState [successItem, errorNamedItem]
    200 "" (by decide)

/-! ### C8 -/

/-- Concrete decodable bundle whose declared media type is
`application/zip` and which contains one entry. -/
def typedZipItem : RawItem :=
  ⟨"data.zip", "application/zip", "zipbytes", some [⟨"inner.csv", "innerbytes"⟩]⟩

/-- C8 counterexample: the entry extracted from a bundle tagged
`application/zip` is queued with declared type `text/csv`, which is not
the media-type tag of the original bundle — refuting the claim at this
input. -/
theorem bundle_tag_counterexample :
    (exSt (ScriptJs.processFile initialState typedZipItem)).files.map PendingFile.type
        = ["text/csv"]
    ∧ typedZipItem.type = "application/zip"
    ∧ ("text/csv" : String) ≠ "application/zip" := by decide

/-- C8 amended: every entry extracted from a recognized bundle is queued
with the fixed declared content type `text/csv`, regardless of the
media-type tag of the bundle and of the intrinsic type of the entry. -/
theorem zip_entries_tagged_fixed_csv (st : State) (f : RawItem) (entries : List ZipEntry)
    (hz : jsEndsWith f.name ".zip" = true) (hd : f.decode = some entries) :
    (exSt (ScriptJs.processFile st f)).files
        = st.files ++ entries.map (fun e => ⟨e.name, "text/csv", e.data⟩)
    ∧ ∀ p ∈ ((exSt (ScriptJs.processFile st f)).files).drop st.files.length,
        p.type = "text/csv" := by
  have hfiles : (exSt (ScriptJs.processFile st f)).files
      = st.files ++ entries.map (fun e => ⟨e.name, "text/csv", e.data⟩) := by
    simp only [ScriptJs.processFile, hz, ite_true, hd]
    split <;> rfl
  refine ⟨hfiles, ?_⟩
  rw [hfiles, List.drop_left]
  intro p hp
  simp only [List.mem_map] at hp
  obtain ⟨e, -, rfl⟩ := hp
  rfl

/-- Witness for the amended C8 at the concrete typed bundle. -/
theorem zip_entries_tagged_witness :
    (exSt (ScriptJs.processFile initialState typedZipItem)).files
        = initialState.files ++ [⟨"inner.csv", "text/csv", "innerbytes"⟩]
    ∧ ∀ p ∈ ((exSt (ScriptJs.processFile initialState typedZipItem)).files).drop
        initialState.files.length, p.type = "text/csv" :=
  zip_entries_tagged_fixed_csv initialState typedZipItem [⟨"inner.csv", "innerbytes"⟩]
    (by decide) (by decide)

/-! ### C9 -/

/-- C9: the row HTML is built by raw interpolation with no escaping: when
`chart_link` is not the literal `N/A` the first cell is an anchor whose
href is the unmodified `chart_link` around the raw `file_name`; when it
is `N/A` the first cell holds the raw `file_name`; and every metric
field is spliced into the row verbatim, so any markup contained in those
strings becomes part of the row structure. -/
theorem row_html_raw_interpolation (r : ResponseItem) :
    (r.chart_link ≠ "N/A" →
      ∃ rest, rowHtml r
        = "\n            <td>" ++ ("<a href=\"" ++ (r.chart_link
          ++ ("\" target=\"_blank\">" ++ (r.file_name
          ++ ("</a></td>\n            <td>" ++ rest))))))
    ∧ (r.chart_link = "N/A" →
      ∃ rest, rowHtml r = "\n            <td>" ++ r.file_name ++ rest)
    ∧ (∀ m ∈ [r.std_dev, r.large_changes, r.avg_daily_return, r.annual_volatility,
          r.sharpe_ratio, r.max_drawdown, r.positive_days, r.moving_average,
          r.bollinger_pctB, r.rsi, r.volume_spikes],
        ∃ before after, rowHtml r = before ++ m ++ after) := by
  refine ⟨?_, ?_, ?_⟩
  · intro hc
    exact ⟨r.std_dev
          ++ "</td>\n            <td>"
          ++ r.large_changes
          ++ "</td>\n            <td>"
          ++ r.avg_daily_return
          ++ "</td>\n            <td>"
          ++ r.annual_volatility
          ++ "</td>\n            <td>"
          ++ r.sharpe_ratio
          ++ "</td>\n            <td>"
          ++ r.max_drawdown
          ++ "</td>\n            <td>"
          ++ r.positive_days
          ++ "</td>\n            <td>"
          ++ r.moving_average
          ++ "</td>\n            <td>"
          ++ r.bollinger_pctB
          ++ "</td>\n            <td>"
          ++ r.rsi
          ++ "</td>\n            <td>"
          ++ r.volume_spikes
          ++ "</td>\n            <td class=\"action-col\"><button class=\"remove-btn\">\u274c</button></td>\n        ",
      by simp [rowHtml, linkHtml, hc, String.append_assoc]⟩
  · intro hc
    exact ⟨"</td>\n            <td>"
          ++ r.std_dev
          ++ "</td>\n            <td>"
          ++ r.large_changes
          ++ "</td>\n            <td>"
          ++ r.avg_daily_return
          ++ "</td>\n            <td>"
          ++ r.annual_volatility
          ++ "</td>\n            <td>"
          ++ r.sharpe_ratio
          ++ "</td>\n            <td>"
          ++ r.max_drawdown
          ++ "</td>\n            <td>"
          ++ r.positive_days
          ++ "</td>\n            <td>"
          ++ r.moving_average
          ++ "</td>\n            <td>"
          ++ r.bollinger_pctB
          ++ "</td>\n            <td>"
          ++ r.rsi
          ++ "</td>\n            <td>"
          ++ r.volume_spikes
          ++ "</td>\n            <td class=\"action-col\"><button class=\"remove-btn\">\u274c</button></td>\n        ",
      by simp [rowHtml, linkHtml, hc, String.append_assoc]⟩
  · intro m hm
    simp only [List.mem_cons, List.not_mem_nil, or_false] at hm
    rcases hm with rfl | rfl | rfl | rfl | rfl | rfl | rfl | rfl | rfl | rfl | rfl
    · exact ⟨"\n            <td>"
          ++ linkHtml r
          ++ "</td>\n            <td>",
        "</td>\n            <td>"
          ++ r.large_changes
          ++ "</td>\n            <td>"
          ++ r.avg_daily_return
          ++ "</td>\n            <td>"
          ++ r.annual_volatility
          ++ "</td>\n            <td>"
          ++ r.sharpe_ratio
          ++ "</td>\n            <td>"
          ++ r.max_drawdown
          ++ "</td>\n            <td>"
          ++ r.positive_days
          ++ "</td>\n            <td>"
          ++ r.moving_average
          ++ "</td>\n            <td>"
          ++ r.bollinger_pctB
          ++ "</td>\n            <td>"
          ++ r.rsi
          ++ "</td>\n            <td>"
          ++ r.volume_spikes
          ++ "</td>\n            <td class=\"action-col\"><button class=\"remove-btn\">\u274c</button></td>\n        ",
        by simp [rowHtml, String.append_assoc]⟩
    · exact ⟨"\n            <td>"
          ++ linkHtml r
          ++ "</td>\n            <td>"
          ++ r.std_dev
          ++ "</td>\n            <td>",
        "</td>\n            <td>"
          ++ r.avg_daily_return
          ++ "</td>\n            <td>"
          ++ r.annual_volatility
          ++ "</td>\n            <td>"
          ++ r.sharpe_ratio
          ++ "</td>\n            <td>"
          ++ r.max_drawdown
          ++ "</td>\n            <td>"
          ++ r.positive_days
          ++ "</td>\n            <td>"
          ++ r.moving_average
          ++ "</td>\n            <td>"
          ++ r.bollinger_pctB
          ++ "</td>\n            <td>"
          ++ r.rsi
          ++ "</td>\n            <td>"
          ++ r.volume_spikes
          ++ "</td>\n            <td class=\"action-col\"><button class=\"remove-btn\">\u274c</button></td>\n        ",
        by simp [rowHtml, String.append_assoc]⟩
    · exact ⟨"\n            <td>"
          ++ linkHtml r
          ++ "</td>\n            <td>"
          ++ r.std_dev
          ++ "</td>\n            <td>"
          ++ r.large_changes
          ++ "</td>\n            <td>",
        "</td>\n            <td>"
          ++ r.annual_volatility
          ++ "</td>\n            <td>"
          ++ r.sharpe_ratio
          ++ "</td>\n            <td>"
          ++ r.max_drawdown
          ++ "</td>\n            <td>"
          ++ r.positive_days
          ++ "</td>\n            <td>"
          ++ r.moving_average
          ++ "</td>\n            <td>"
          ++ r.bollinger_pctB
          ++ "</td>\n            <td>"
          ++ r.rsi
          ++ "</td>\n            <td>"
          ++ r.volume_spikes
          ++ "</td>\n            <td class=\"action-col\"><button class=\"remove-btn\">\u274c</button></td>\n        ",
        by simp [rowHtml, String.append_assoc]⟩
    · exact ⟨"\n            <td>"
          ++ linkHtml r
          ++ "</td>\n            <td>"
          ++ r.std_dev
          ++ "</td>\n            <td>"
          ++ r.large_changes
          ++ "</td>\n            <td>"
          ++ r.avg_daily_return
          ++ "</td>\n            <td>",
        "</td>\n            <td>"
          ++ r.sharpe_ratio
          ++ "</td>\n            <td>"
          ++ r.max_drawdown
          ++ "</td>\n            <td>"
          ++ r.positive_days
          ++ "</td>\n            <td>"
          ++ r.moving_average
          ++ "</td>\n            <td>"
          ++ r.bollinger_pctB
          ++ "</td>\n            <td>"
          ++ r.rsi
          ++ "</td>\n            <td>"
          ++ r.volume_spikes
          ++ "</td>\n            <td class=\"action-col\"><button class=\"remove-btn\">\u274c</button></td>\n        ",
        by simp [rowHtml, String.append_assoc]⟩
    · exact ⟨"\n            <td>"
          ++ linkHtml r
          ++ "</td>\n            <td>"
          ++ r.std_dev
          ++ "</td>\n            <td>"
          ++ r.large_changes
          ++ "</td>\n            <td>"
          ++ r.avg_daily_return
          ++ "</td>\n            <td>"
          ++ r.annual_volatility
          ++ "</td>\n            <td>",
        "</td>\n            <td>"
          ++ r.max_drawdown
          ++ "</td>\n            <td>"
          ++ r.positive_days
          ++ "</td>\n            <td>"
          ++ r.moving_average
          ++ "</td>\n            <td>"
          ++ r.bollinger_pctB
          ++ "</td>\n            <td>"
          ++ r.rsi
          ++ "</td>\n            <td>"
          ++ r.volume_spikes
          ++ "</td>\n            <td class=\"action-col\"><button class=\"remove-btn\">\u274c</button></td>\n        ",
        by simp [rowHtml, String.append_assoc]⟩
    · exact ⟨"\n            <td>"
          ++ linkHtml r
          ++ "</td>\n            <td>"
          ++ r.std_dev
          ++ "</td>\n            <td>"
          ++ r.large_changes
          ++ "</td>\n            <td>"
          ++ r.avg_daily_return
          ++ "</td>\n            <td>"
          ++ r.annual_volatility
          ++ "</td>\n            <td>"
          ++ r.sharpe_ratio
          ++ "</td>\n            <td>",
        "</td>\n            <td>"
          ++ r.positive_days
          ++ "</td>\n            <td>"
          ++ r.moving_average
          ++ "</td>\n            <td>"
          ++ r.bollinger_pctB
          ++ "</td>\n            <td>"
          ++ r.rsi
          ++ "</td>\n            <td>"
          ++ r.volume_spikes
          ++ "</td>\n            <td class=\"action-col\"><button class=\"remove-btn\">\u274c</button></td>\n        ",
        by simp [rowHtml, String.append_assoc]⟩
    · exact ⟨"\n            <td>"
          ++ linkHtml r
          ++ "</td>\n            <td>"
          ++ r.std_dev
          ++ "</td>\n            <td>"
          ++ r.large_changes
          ++ "</td>\n            <td>"
          ++ r.avg_daily_return
          ++ "</td>\n            <td>"
          ++ r.annual_volatility
          ++ "</td>\n            <td>"
          ++ r.sharpe_ratio
          ++ "</td>\n            <td>"
          ++ r.max_drawdown
          ++ "</td>\n            <td>",
        "</td>\n            <td>"
          ++ r.moving_average
          ++ "</td>\n            <td>"
          ++ r.bollinger_pctB
          ++ "</td>\n            <td>"
          ++ r.rsi
          ++ "</td>\n            <td>"
          ++ r.volume_spikes
          ++ "</td>\n            <td class=\"action-col\"><button class=\"remove-btn\">\u274c</button></td>\n        ",
        by simp [rowHtml, String.append_assoc]⟩
    · exact ⟨"\n            <td>"
          ++ linkHtml r
          ++ "</td>\n            <td>"
          ++ r.std_dev
          ++ "</td>\n            <td>"
          ++ r.large_changes
          ++ "</td>\n            <td>"
          ++ r.avg_daily_return
          ++ "</td>\n            <td>"
          ++ r.annual_volatility
          ++ "</td>\n            <td>"
          ++ r.sharpe_ratio
          ++ "</td>\n            <td>"
          ++ r.max_drawdown
          ++ "</td>\n            <td>"
          ++ r.positive_days
          ++ "</td>\n            <td>",
        "</td>\n            <td>"
          ++ r.bollinger_pctB
          ++ "</td>\n            <td>"
          ++ r.rsi
          ++ "</td>\n            <td>"
          ++ r.volume_spikes
          ++ "</td>\n            <td class=\"action-col\"><button class=\"remove-btn\">\u274c</button></td>\n        ",
        by simp [rowHtml, String.append_assoc]⟩
    · exact ⟨"\n            <td>"
          ++ linkHtml r
          ++ "</td>\n            <td>"
          ++ r.std_dev
          ++ "</td>\n            <td>"
          ++ r.large_changes
          ++ "</td>\n            <td>"
          ++ r.avg_daily_return
          ++ "</td>\n            <td>"
          ++ r.annual_volatility
          ++ "</td>\n            <td>"
          ++ r.sharpe_ratio
          ++ "</td>\n            <td>"
          ++ r.max_drawdown
          ++ "</td>\n            <td>"
          ++ r.positive_days
          ++ "</td>\n            <td>"
          ++ r.moving_average
          ++ "</td>\n            <td>",
        "</td>\n            <td>"
          ++ r.rsi
          ++ "</td>\n            <td>"
          ++ r.volume_spikes
          ++ "</td>\n            <td class=\"action-col\"><button class=\"remove-btn\">\u274c</button></td>\n        ",
        by simp [rowHtml, String.append_assoc]⟩
    · exact ⟨"\n            <td>"
          ++ linkHtml r
          ++ "</td>\n            <td>"
          ++ r.std_dev
          ++ "</td>\n            <td>"
          ++ r.large_changes
          ++ "</td>\n            <td>"
          ++ r.avg_daily_return
          ++ "</td>\n            <td>"
          ++ r.annual_volatility
          ++ "</td>\n            <td>"
          ++ r.sharpe_ratio
          ++ "</td>\n            <td>"
          ++ r.max_drawdown
          ++ "</td>\n            <td>"
          ++ r.positive_days
          ++ "</td>\n            <td>"
          ++ r.moving_average
          ++ "</td>\n            <td>"
          ++ r.bollinger_pctB
          ++ "</td>\n            <td>",
        "</td>\n            <td>"
          ++ r.volume_spikes
          ++ "</td>\n            <td class=\"action-col\"><button class=\"remove-btn\">\u274c</button></td>\n        ",
        by simp [rowHtml, String.append_assoc]⟩
    · exact ⟨"\n            <td>"
          ++ linkHtml r
          ++ "</td>\n            <td>"
          ++ r.std_dev
          ++ "</td>\n            <td>"
          ++ r.large_changes
          ++ "</td>\n            <td>"
          ++ r.avg_daily_return
          ++ "</td>\n            <td>"
          ++ r.annual_volatility
          ++ "</td>\n            <td>"
          ++ r.sharpe_ratio
          ++ "</td>\n            <td>"
          ++ r.max_drawdown
          ++ "</td>\n            <td>"
          ++ r.positive_days
          ++ "</td>\n            <td>"
          ++ r.moving_average
          ++ "</td>\n            <td>"
          ++ r.bollinger_pctB
          ++ "</td>\n            <td>"
          ++ r.rsi
          ++ "</td>\n            <td>",
        "</td>\n            <td class=\"action-col\"><button class=\"remove-btn\">\u274c</button></td>\n        ",
        by simp [rowHtml, String.append_assoc]⟩

/-- Concrete success item whose `chart_link` is the literal `N/A`. -/
def naItem : ResponseItem :=
  { successItem with chart_link := "N/A", file_name := "plain.csv" }

/-- Witness for C9 at concrete items on both link branches. -/
theorem row_html_raw_witness :
    (∃ rest, rowHtml successItem
        = "\n            <td>" ++ ("<a href=\"" ++ (successItem.chart_link
          ++ ("\" target=\"_blank\">" ++ (successItem.file_name
          ++ ("</a></td>\n            <td>" ++ rest))))))
    ∧ (∃ rest, rowHtml naItem = "\n            <td>" ++ naItem.file_name ++ rest) :=
  ⟨(row_html_raw_interpolation successItem).1 (by decide),
   (row_html_raw_interpolation naItem).2.1 (by decide)⟩

/-! ### C4 -/

/-- Concrete error item whose file name normalizes to the empty string. -/
def errorBlankItem : ResponseItem :=
  { errorNamedItem with file_name := "a/" }

/-- C4 counterexample: a success response holding one success item and
one error item (so F = 1 > 0) whose file name normalizes to the empty
base name raises zero consolidated alerts, not exactly one. -/
theorem consolidated_alert_counterexample :
    sampleState.files ≠ []
    ∧ ([successItem, errorBlankItem].filter (fun r => r.error)).length = 1
    ∧ (ScriptJs.doUpload sampleState
        (.resp true 200 "" (.ok [successItem, errorBlankItem]))).1.alerts = [] := by
  decide

/-- C4 amended: on a success response with K success items and F > 0
error items, exactly K rows are appended and — provided the joined
distinct-base-name string is non-empty — exactly one consolidated alert
is raised, whose text pluralizes on the number of distinct names and
lists exactly the distinct failed base names (path segments stripped on
both slash kinds). -/
theorem consolidated_failure_alert (st : State) (results : List ResponseItem)
    (status : Nat) (body : String) (h : st.files ≠ [])
    (herr : results.filter (fun r => r.error) ≠ [])
    (hmsg : 0 < (String.intercalate "\n"
        (dedupFirst ((results.filter (fun r => r.error)).map
          (fun r => lastPathSegment r.file_name)))).length) :
    (ScriptJs.doUpload st (.resp true status body (.ok results))).1.rows.length
        = st.rows.length + (results.filter (fun r => !r.error)).length
    ∧ (ScriptJs.doUpload st (.resp true status body (.ok results))).1.alerts
        = st.alerts ++ [ScriptJs.failAlertMsg
            (dedupFirst ((results.filter (fun r => r.error)).map
              (fun r => lastPathSegment r.file_name)))]
    ∧ (dedupFirst ((results.filter (fun r => r.error)).map
        (fun r => lastPathSegment r.file_name))).Nodup
    ∧ ∀ x, x ∈ dedupFirst ((results.filter (fun r => r.error)).map
          (fun r => lastPathSegment r.file_name))
        ↔ x ∈ (results.filter (fun r => r.error)).map
            (fun r => lastPathSegment r.file_name) := by
  have hf : st.files.isEmpty = false := isEmpty_false_of_ne_nil st.files h
  have hfe : (results.filter (fun r => r.error)).isEmpty = false :=
    isEmpty_false_of_ne_nil _ herr
  refine ⟨?_, ?_, ?_, ?_⟩
  · rw [scriptJs_doUpload_ok_rows st status body results hf]
    simp
  · rw [scriptJs_doUpload_ok_alerts st status body results hf]
    simp [hfe, hmsg]
  · exact nodup_dedupFirstAux _ _
  · intro x
    simp [dedupFirst, mem_dedupFirstAux]

/-- Witness for the amended C4 at a concrete one-success one-error
response whose error item keeps a non-empty base name. -/
theorem consolidated_failure_alert_witness :
    (ScriptJs.doUpload sampleState
        (.resp true 200 "" (.ok [successItem, errorNamedItem]))).1.rows.length
        = sampleState.rows.length
          + ([successItem, errorNamedItem].filter (fun r => !r.error)).length
    ∧ (ScriptJs.doUpload sampleState
        (.resp true 200 "" (.ok [successItem, errorNamedItem]))).1.alerts
        = sampleState.alerts ++ [ScriptJs.failAlertMsg
            (dedupFirst (([successItem, errorNamedItem].filter (fun r => r.error)).map
              (fun r => lastPathSegment r.file_name)))]
    ∧ (dedupFirst (([successItem, errorNamedItem].filter (fun r => r.error)).map
        (fun r => lastPathSegment r.file_name))).Nodup
    ∧ ∀ x, x ∈ dedupFirst (([successItem, errorNamedItem].filter (fun r => r.error)).map
          (fun r => lastPathSegment r.file_name))
        ↔ x ∈ ([successItem, errorNamedItem].filter (fun r => r.error)).map
            (fun r => lastPathSegment r.file_name) :=
  consolidated_failure_alert sampleState [successItem, errorNamedItem] 200 ""
    (by decide) (by decide) (by decide)

/-! ### C10 -/

/-- C10: on a success response whose F > 0 error items all normalize to
the empty base name, the consolidated failure alert is suppressed
entirely, while the queue is still cleared and the successes are still
appended as rows. -/
theorem failure_alert_suppressed_when_names_blank (st : State)
    (results : List ResponseItem) (status : Nat) (body : String)
    (h : st.files ≠ [])
    (herr : results.filter (fun r => r.error) ≠ [])
    (hblank : ∀ r ∈ results, r.error = true → lastPathSegment r.file_name = "") :
    (ScriptJs.doUpload st (.resp true status body (.ok results))).1.alerts = st.alerts
    ∧ (ScriptJs.doUpload st (.resp true status body (.ok results))).1.files = []
    ∧ (ScriptJs.doUpload st (.resp true status body (.ok results))).1.rows
        = st.rows ++ (results.filter (fun r => !r.error)).map rowHtml := by
  have hf : st.files.isEmpty = false := isEmpty_false_of_ne_nil st.files h
  have hfe : (results.filter (fun r => r.error)).isEmpty = false :=
    isEmpty_false_of_ne_nil _ herr
  have hnames : ∀ x ∈ (results.filter (fun r => r.error)).map
      (fun r => lastPathSegment r.file_name), x = "" := by
    intro x hx
    simp only [List.mem_map, List.mem_filter] at hx
    obtain ⟨r, ⟨hr, herr2⟩, rfl⟩ := hx
    exact hblank r hr herr2
  have hmapne : (results.filter (fun r => r.error)).map
      (fun r => lastPathSegment r.file_name) ≠ [] := by
    intro hmap
    rw [List.map_eq_nil_iff] at hmap
    exact herr hmap
  have hded : dedupFirst ((results.filter (fun r => r.error)).map
      (fun r => lastPathSegment r.file_name)) = [""] :=
    dedupFirst_all_eq _ "" hmapne hnames
  refine ⟨?_, scriptJs_doUpload_clears st _ hf,
    scriptJs_doUpload_ok_rows st status body results hf⟩
  rw [scriptJs_doUpload_ok_alerts st status body results hf, hfe, hded]
  have hlen : ("\n".intercalate [""]).length = 0 := by decide
  simp [hlen]

/-- Witness for C10: one success plus two error items whose names are a
bare slash path and the empty string. -/
theorem failure_alert_suppressed_witness :
    (ScriptJs.doUpload sampleState
        (.resp true 200 "" (.ok [successItem, errorBlankItem]))).1.alerts
        = sampleState.alerts
    ∧ (ScriptJs.doUpload sampleState
        (.resp true 200 "" (.ok [successItem, errorBlankItem]))).1.files = []
    ∧ (ScriptJs.doUpload sampleState
        (.resp true 200 "" (.ok [successItem, errorBlankItem]))).1.rows
        = sampleState.rows
          ++ ([successItem, errorBlankItem].filter (fun r => !r.error)).map rowHtml :=
  failure_alert_suppressed_when_names_blank sampleState [successItem, errorBlankItem]
    200 "" (by decide) (by decide) (by decide)

/-! ### C6 -/

theorem legacy_runItems_plain : ∀ (items : List RawItem) (st : State),
    (∀ f ∈ items, jsEndsWith f.name ".zip" = false) →
    runItems Legacy.processFile st items
      = ({ st with
          files := st.files ++ ((items.filter (fun f => jsEndsWith f.name ".csv")).map
            (fun f => ⟨f.name, f.type, f.data⟩)),
          alerts := st.alerts
            ++ ((items.filter (fun f => !(jsEndsWith f.name ".csv"))).map
              (fun f => "Unsupported type: " ++ f.name)) }, true) := by
  intro items
  induction items with
  | nil =>
      intro st _
      simp [runItems]
  | cons f fs ih =>
      intro st hz
      have hzf : jsEndsWith f.name ".zip" = false := hz f (List.mem_cons_self _ _)
      have hzs : ∀ g ∈ fs, jsEndsWith g.name ".zip" = false :=
        fun g hg => hz g (List.mem_cons_of_mem _ hg)
      by_cases hcsv : jsEndsWith f.name ".csv" = true
      · have hstep : Legacy.processFile st f
            = .ok { st with files := st.files ++ [⟨f.name, f.type, f.data⟩] } := by
          simp [Legacy.processFile, hzf, hcsv]
        rw [runItems, hstep]
        dsimp only
        rw [ih _ hzs]
        simp [List.filter_cons, hcsv, List.append_assoc]
      · rw [Bool.not_eq_true] at hcsv
        have hstep : Legacy.processFile st f
            = .ok { st with
                alerts := st.alerts ++ ["Unsupported type: " ++ f.name] } := by
          simp [Legacy.processFile, hzf, hcsv]
        rw [runItems, hstep]
        dsimp only
        rw [ih _ hzs]
        simp [List.filter_cons, hcsv, List.append_assoc]

theorem legacy_doUpload_sent (st : State) (out : FetchOutcome)
    (hf : st.files.isEmpty = false) :
    (Legacy.doUpload st out).2 = some st.files := by
  cases out with
  | fail e => simp [Legacy.doUpload, hf]
  | resp resOk sc bt json =>
      cases json with
      | error e => simp [Legacy.doUpload, hf]
      | ok rs => simp [Legacy.doUpload, hf]

/-- C6: in the intake variant with the unsupported-type branch, a batch
of plain items (no bundles) queues exactly the items whose names end in
`.csv`, raises one notice naming each unsupported item, completes
without aborting, and the subsequent upload sends exactly the queued
entries. -/
theorem plain_batch_queues_and_reports_unsupported (st : State)
    (items : List RawItem) (out : FetchOutcome)
    (hz : ∀ f ∈ items, jsEndsWith f.name ".zip" = false)
    (hst : st.files = [])
    (hcsv : items.filter (fun f => jsEndsWith f.name ".csv") ≠ []) :
    runItems Legacy.processFile st items
      = ({ st with
          files := (items.filter (fun f => jsEndsWith f.name ".csv")).map
            (fun f => ⟨f.name, f.type, f.data⟩),
          alerts := st.alerts
            ++ ((items.filter (fun f => !(jsEndsWith f.name ".csv"))).map
              (fun f => "Unsupported type: " ++ f.name)) }, true)
    ∧ (Legacy.doUpload (runItems Legacy.processFile st items).1 out).2
      = some ((items.filter (fun f => jsEndsWith f.name ".csv")).map
          (fun f => ⟨f.name, f.type, f.data⟩)) := by
  have hrun := legacy_runItems_plain items st hz
  rw [hst] at hrun
  simp only [List.nil_append] at hrun
  have hmapne : (items.filter (fun f => jsEndsWith f.name ".csv")).map
      (fun f => (⟨f.name, f.type, f.data⟩ : PendingFile)) ≠ [] := by
    intro hmap
    rw [List.map_eq_nil_iff] at hmap
    exact hcsv hmap
  refine ⟨hrun, ?_⟩
  rw [hrun]
  exact legacy_doUpload_sent _ out (isEmpty_false_of_ne_nil _ hmapne)

/-- Concrete accepted plain file. -/
def csvItem : RawItem := ⟨"a.csv", "text/csv", "csvdata", none⟩

/-- Concrete unsupported plain file. -/
def txtItem : RawItem := ⟨"notes.txt", "text/plain", "txtdata", none⟩

/-- Witness for C6 at a concrete one-accepted one-unsupported batch. -/
theorem plain_batch_witness :
    runItems Legacy.processFile initialState [csvItem, txtItem]
      = ({ initialState with
          files := [⟨"a.csv", "text/csv", "csvdata"⟩],
          alerts := ["Unsupported type: notes.txt"] }, true)
    ∧ (Legacy.doUpload (runItems Legacy.processFile initialState [csvItem, txtItem]).1
        (.fail "TypeError: Failed to fetch")).2
      = some [⟨"a.csv", "text/csv", "csvdata"⟩] :=
  plain_batch_queues_and_reports_unsupported initialState [csvItem, txtItem]
    (.fail "TypeError: Failed to fetch") (by decide) (by decide) (by decide)

/-! ### C3 -/

/-- Concrete corrupt bundle: JSZip rejects on its bytes. -/
def corruptZipItem : RawItem := ⟨"bad.zip", "application/zip", "corruptbytes", none⟩

/-- Concrete valid plain file dropped after the corrupt bundle. -/
def plainCsvItem : RawItem := ⟨"c.csv", "text/csv", "csvbytes", none⟩

/-- C3: the code evaluated at the failing input.  A batch holding a
corrupt bundle followed by a valid file leaves the state untouched: the
decode rejection escapes the (uncaught) async handler, the loop stops,
the valid file is never classified or queued, no notice is raised, and
the upload step never runs — in both script variants.  This diverges
from the claim that only the corrupt bundle is skipped. -/
theorem corrupt_zip_aborts_whole_batch :
    ScriptJs.handleBatch initialState [corruptZipItem, plainCsvItem]
        (.resp true 200 "" (.ok [successItem]))
      = (initialState, false, none)
    ∧ Legacy.handleBatch initialState [corruptZipItem, plainCsvItem]
        (.resp true 200 "" (.ok [successItem]))
      = (initialState, false, none) := by
  decide
